import Mathlib

/-!
Verification development for the Territory Scoring & Stratification Engine
(`generate_territory_map.py`).

The engine is embedded shallowly:

* spreadsheet cell values become the inductive type `Val` (string / number /
  boolean), a raw record is a finite map `Record := String → Option Val`
  (a `none` lookup models a missing or empty cell);
* Python `float` arithmetic is modelled by exact rational arithmetic;
  Python's `round` (banker's rounding, round half to even) is modelled by
  `roundHalfEven`, and `int(...)` truncation by `pyTrunc`;
* the five pipeline stages (`enrich_hospital`,
  `calculate_infrastructure_scores`, `assign_clinical_tiers`,
  `calculate_travel`, `assign_geographic_access`) are translated one by one;
  `sorted(..., reverse=True)` on records is modelled by a stable insertion
  sort of the record positions by the descending lexicographic sort key.
-/

namespace TerritoryMap

/-! ### Rounding primitives -/

/-- Python `round` on a real-valued quantity: round half to even. -/
def roundHalfEven {α : Type} [LinearOrderedField α] [FloorRing α] (x : α) : ℤ :=
  let f := ⌊x⌋
  let r := x - (f : α)
  if r < 1 / 2 then f
  else if 1 / 2 < r then f + 1
  else if 2 ∣ f then f else f + 1

/-- Python `int(...)` applied to a float: truncation toward zero. -/
def pyTrunc {α : Type} [LinearOrderedField α] [FloorRing α] (x : α) : ℤ :=
  if x < 0 then -⌊-x⌋ else ⌊x⌋

/-- Python `round(x, 1)`: one decimal digit, half to even. -/
def roundTo1 {α : Type} [LinearOrderedField α] [FloorRing α] (x : α) : α :=
  (roundHalfEven (x * 10) : α) / 10

section RoundLemmas

variable {α : Type} [LinearOrderedField α] [FloorRing α]

theorem roundHalfEven_intCast (n : ℤ) : roundHalfEven ((n : α)) = n := by
  simp only [roundHalfEven, Int.floor_intCast, sub_self]
  norm_num

theorem floor_le_roundHalfEven (x : α) : ⌊x⌋ ≤ roundHalfEven x := by
  simp only [roundHalfEven]
  split_ifs <;> omega

theorem roundHalfEven_le_floor_add_one (x : α) : roundHalfEven x ≤ ⌊x⌋ + 1 := by
  simp only [roundHalfEven]
  split_ifs <;> omega

theorem roundHalfEven_nonneg {x : α} (hx : 0 ≤ x) : 0 ≤ roundHalfEven x := by
  have h := floor_le_roundHalfEven x
  have h2 : (0 : ℤ) ≤ ⌊x⌋ := Int.floor_nonneg.mpr hx
  omega

theorem roundHalfEven_mono {x y : α} (hxy : x ≤ y) :
    roundHalfEven x ≤ roundHalfEven y := by
  rcases lt_or_eq_of_le (Int.floor_mono hxy) with hlt | heq
  · have h1 := roundHalfEven_le_floor_add_one x
    have h2 := floor_le_roundHalfEven y
    omega
  · have hsub : x - (⌊x⌋ : α) ≤ y - (⌊y⌋ : α) := by
      rw [← heq]; linarith
    simp only [roundHalfEven, ← heq]
    split_ifs <;> first | omega | (exfalso; linarith)

theorem roundHalfEven_nonpos {x : α} (hx : x ≤ 0) : roundHalfEven x ≤ 0 := by
  have h := roundHalfEven_mono hx
  rwa [show ((0 : α)) = ((0 : ℤ) : α) by norm_num, roundHalfEven_intCast] at h

theorem roundHalfEven_eq_of_lt_half {q : α} {n : ℤ} (h1 : (n : α) ≤ q)
    (h2 : q < (n : α) + 1 / 2) : roundHalfEven q = n := by
  have hf : ⌊q⌋ = n := Int.floor_eq_iff.mpr ⟨h1, by linarith⟩
  simp only [roundHalfEven, hf]
  rw [if_pos (by linarith)]

theorem roundHalfEven_eq_of_gt_half {q : α} {n : ℤ} (h1 : (n : α) + 1 / 2 < q)
    (h2 : q ≤ (n : α) + 1) : roundHalfEven q = n + 1 := by
  rcases lt_or_eq_of_le h2 with hlt | heq
  · have hf : ⌊q⌋ = n := by
      refine Int.floor_eq_iff.mpr ⟨by linarith, ?_⟩
      linarith
    simp only [roundHalfEven, hf]
    rw [if_neg (by linarith), if_pos (by linarith)]
  · have hq : q = ((n + 1 : ℤ) : α) := by push_cast; linarith
    rw [hq, roundHalfEven_intCast]

theorem pyTrunc_eq_of_nonneg {q : α} {n : ℤ} (h0 : 0 ≤ q) (h1 : (n : α) ≤ q)
    (h2 : q < (n : α) + 1) : pyTrunc q = n := by
  have hf : ⌊q⌋ = n := Int.floor_eq_iff.mpr ⟨h1, by linarith⟩
  simp only [pyTrunc]
  rw [if_neg (not_lt.mpr h0)]
  exact hf

theorem pyTrunc_intCast (n : ℤ) : pyTrunc ((n : α)) = n := by
  simp only [pyTrunc]
  split_ifs with h
  · rw [← Int.cast_neg, Int.floor_intCast]; omega
  · exact Int.floor_intCast n

theorem pyTrunc_nonneg {q : α} (h0 : 0 ≤ q) : 0 ≤ pyTrunc q := by
  simp only [pyTrunc]
  rw [if_neg (not_lt.mpr h0)]
  exact Int.floor_nonneg.mpr h0

end RoundLemmas

/-! ### String helpers (Python `.strip()` and `.lower()`) -/

/-- Python `str.strip()`: drop whitespace from both ends. -/
def pyStrip (s : String) : String :=
  String.mk (((s.toList.dropWhile Char.isWhitespace).reverse.dropWhile
    Char.isWhitespace).reverse)

/-- Python `str.lower()` (ASCII letters). -/
def pyLower (s : String) : String :=
  String.mk (s.toList.map (fun c =>
    if 'A' ≤ c ∧ c ≤ 'Z' then Char.ofNat (c.toNat + 32) else c))

/-! ### Cell values and raw records -/

/-- A scalar spreadsheet cell value: a string, a number (Python int or
float, modelled exactly as a rational), or a boolean. -/
inductive Val : Type
  | str (s : String)
  | num (q : ℚ)
  | bool (b : Bool)
deriving DecidableEq

/-- A raw record, as produced by `load_excel`: a mapping from column name to
cell value.  A `none` result models a missing or empty (`None`) cell. -/
def Record : Type := String → Option Val

instance : Inhabited Record := ⟨fun _ => none⟩

/-- Digits of a decimal string chunk, as a natural number; `none` if the
chunk is empty or contains a non-digit. -/
def decDigits : List Char → Option ℕ
  | [] => none
  | c :: rest =>
      if c.isDigit then
        match rest with
        | [] => some (c.toNat - 48)
        | _ => (decDigits rest).map (fun tl => (c.toNat - 48) * 10 ^ rest.length + tl)
      else none

/-- Parse the plain decimal forms accepted by Python `float(...)`
(optional sign, digits, optional fractional part). -/
def parseDecimal (s : String) : Option ℚ :=
  let core : List Char → Option ℚ := fun l =>
    let intPart := l.takeWhile (· ≠ '.')
    let rest := l.dropWhile (· ≠ '.')
    match rest with
    | [] => (decDigits intPart).map (fun n => (n : ℚ))
    | _ :: frac =>
        match intPart, frac with
        | [], [] => none
        | [], f =>
            (decDigits f).map (fun n => (n : ℚ) / 10 ^ f.length)
        | i, [] => (decDigits i).map (fun n => (n : ℚ))
        | i, f => do
            let a ← decDigits i
            let b ← decDigits f
            pure ((a : ℚ) + (b : ℚ) / 10 ^ f.length)
  match (pyStrip s).toList with
  | '-' :: l => (core l).map (fun q => -q)
  | '+' :: l => core l
  | l => core l

/-- The float value Python obtains from a cell, if any: numbers are kept,
booleans convert to 0 / 1, numeric-looking strings are parsed. -/
def valFloat : Val → Option ℚ
  | .num q => some q
  | .bool b => some (if b then 1 else 0)
  | .str s => parseDecimal s

/-- Source helper `safe_float(val, default=0.0)`. -/
def safe_float (v : Option Val) (default : ℚ := 0) : ℚ :=
  match v with
  | none => default
  | some w =>
      match valFloat w with
      | some q => q
      | none => default

/-- Source helper `safe_int(val, default=0)`: `int(float(val))`. -/
def safe_int (v : Option Val) (default : ℤ := 0) : ℤ :=
  match v with
  | none => default
  | some w =>
      match valFloat w with
      | some q => pyTrunc q
      | none => default

/-- Source helper `safe_bool(val, default=False)`. -/
def safe_bool (v : Option Val) (default : Bool := false) : Bool :=
  match v with
  | none => default
  | some (.bool b) => b
  | some (.str s) => pyLower s ∈ ["true", "yes", "1", "y"]
  | some (.num q) => decide (q ≠ 0)

/-- Python `str(...)` of a cell value. -/
def valStr : Val → String
  | .str s => s
  | .num q => toString q
  | .bool b => if b then "True" else "False"

/-- Python truthiness of a cell value. -/
def valTruthy : Val → Bool
  | .str s => decide (s ≠ "")
  | .num q => decide (q ≠ 0)
  | .bool b => b

/-- Reading `str(h.get(key, default))` for a string default. -/
def getStrD (r : Record) (key : String) (default : String) : String :=
  match r key with
  | none => default
  | some v => valStr v

/-- Reading `str(h.get(key, "")) if h.get(key) else ""` — the guarded string reads
used for `ir_phone`, `cert_body` and `comment`. -/
def getStrIfTruthy (r : Record) (key : String) : String :=
  match r key with
  | none => ""
  | some v => if valTruthy v then valStr v else ""

/-! ### Constants from the source -/

def REQUIRED_COLUMNS : List String :=
  ["Hospital Name", "Short Name", "Address", "City", "State", "County",
   "Latitude", "Longitude", "Phone", "Licensed Beds", "Affiliation",
   "Buy Group/GPO", "Stroke Certification", "Strokes Per Year"]

def OPTIONAL_COLUMNS : List String :=
  ["IR Phone", "Cert Body", "Neurosurgery Fellowship", "Neuro IR Fellowship",
   "Catchment Population", "Population 65+", "Median Age", "Life Expectancy",
   "CAH Status", "Telestroke Capable", "24/7 Thrombectomy",
   "tPA Available", "Neuro ICU", "CT Scanner", "Spoke Hospital",
   "A-Fib Prevalence", "A-Fib Absolute Count", "MMAE Score",
   "Clinical Benefit Radius (km)",
   "Medevac Available", "Road Access",
   "Comment"]

def CERT_COLORS : List (String × String) :=
  [("CSC", "#EB1700"), ("PSC", "#F59E0B"), ("TSC", "#0077C8"),
   ("TCC", "#0077C8"), ("None", "#6B7280"), ("", "#6B7280")]

def CERT_LABELS : List (String × String) :=
  [("CSC", "Comprehensive Stroke Center"), ("PSC", "Primary Stroke Center"),
   ("TSC", "Thrombectomy-Capable Stroke Center"), ("TCC", "Thrombectomy-Capable Center"),
   ("None", "No Certification"), ("", "No Certification")]

def EPIRATES : String → ℚ
  | "ischemic_per_100k" => 216
  | "lvo_pct_of_ischemic" => 21 / 100
  | "mt_eligibility_pct" => 70 / 100
  | "avm_aneurysm_per_100k" => 12
  | "hemorrhagic_per_100k" => 12
  | "hemorrhagic_sah_pct" => 5 / 100
  | "hemorrhagic_ich_pct" => 80 / 100
  | "hemorrhagic_other_pct" => 15 / 100
  | "age_65_multiplier" => 5 / 2
  | "default_65_plus_pct" => 17 / 100
  | "avg_los_ischemic_days" => 66 / 10
  | "avg_charges_ischemic" => 72787
  | _ => 0

def INFRA_WEIGHTS : String → ℤ
  | "cert_csc" => 25
  | "cert_psc" => 20
  | "cert_tsc" => 15
  | "cert_none" => 5
  | "thrombectomy_24_7" => 15
  | "neuro_icu" => 12
  | "cah" => 10
  | "ct_scanner" => 8
  | "telestroke" => 8
  | "tpa" => 5
  | "nsg_fellowship" => 7
  | "nir_fellowship" => 8
  | "stroke_volume_max" => 10
  | _ => 0

/-- Membership of a (trimmed) raw certification value in `CERT_COLORS`. -/
def certRecognized (c : String) : Bool := (CERT_COLORS.map Prod.fst).contains c

/-! ### Epidemiology estimator (`enrich_hospital`, demographics block) -/

/-- The 65+ population actually used: if the total is positive and the 65+
count is zero, impute `int(pop_total * 0.17)`. -/
def imputedPop65 (T S : ℤ) : ℤ :=
  if 0 < T ∧ S = 0 then pyTrunc ((T : ℚ) * EPIRATES "default_65_plus_pct") else S

/-- The value `max(0, pop_total - pop_65)`. -/
def popUnder65 (T S65 : ℤ) : ℤ := max 0 (T - S65)

/-- Age-weighted effective population:
`round(pop_under_65 + pop_65 * 2.5) if pop_total > 0 else 0`. -/
def effectivePop (T S : ℤ) : ℤ :=
  let S65 := imputedPop65 T S
  if 0 < T then
    roundHalfEven ((popUnder65 T S65 : ℚ) + (S65 : ℚ) * EPIRATES "age_65_multiplier")
  else 0

/-- The value `round(effective_pop * 216 / 100000)` under the `effective_pop > 0` guard. -/
def ischemicVolume (T S : ℤ) : ℤ :=
  if 0 < effectivePop T S then
    roundHalfEven ((effectivePop T S : ℚ) * EPIRATES "ischemic_per_100k" / 100000)
  else 0

/-- The value `round(effective_pop * 12 / 100000)` under the `effective_pop > 0` guard. -/
def hemorrhagicVolume (T S : ℤ) : ℤ :=
  if 0 < effectivePop T S then
    roundHalfEven ((effectivePop T S : ℚ) * EPIRATES "hemorrhagic_per_100k" / 100000)
  else 0

/-! ### Enriched records -/

/-- The typed fields `enrich_hospital` stores on a record.  Travel-stage
fields are kept out of this structure (they are real-valued, see below). -/
structure Hosp where
  name : String := ""
  short_name : String := ""
  address : String := ""
  city : String := ""
  state : String := ""
  county : String := ""
  phone : String := ""
  ir_phone : String := ""
  lat : ℚ := 0
  lng : ℚ := 0
  beds : ℤ := 0
  affiliation : String := ""
  gpo : String := ""
  strokes_yr : ℤ := 0
  comment : String := ""
  cert : String := "None"
  cert_body : String := ""
  cert_color : String := ""
  cert_label : String := ""
  nsg_fellowship : Bool := false
  nir_fellowship : Bool := false
  median_age : ℚ := 0
  life_expectancy : ℚ := 0
  pop_total : ℤ := 0
  pop_65_plus : ℤ := 0
  pop_under_65 : ℤ := 0
  pop_65_pct : ℚ := 0
  effective_pop : ℤ := 0
  ischemic_volume : ℤ := 0
  lvo_volume : ℤ := 0
  mt_eligible : ℤ := 0
  avm_aneurysm_volume : ℤ := 0
  hemorrhagic_volume : ℤ := 0
  sah_volume : ℤ := 0
  ich_volume : ℤ := 0
  hemorrhagic_other : ℤ := 0
  total_stroke_volume : ℤ := 0
  cah : Bool := false
  telestroke : Bool := false
  thrombectomy_24_7 : Bool := false
  tpa_available : Bool := false
  neuro_icu : Bool := false
  ct_scanner : Bool := false
  spoke_hospital : Bool := false
  afib_prevalence : ℚ := 0
  afib_count : ℤ := 0
  mmae_score : ℚ := 0
  clinical_benefit_radius : ℚ := 0
  medevac_available : Bool := false
  road_access : Bool := true
  infrastructure_score : ℤ := 0
  clinical_tier : ℕ := 0
  clinical_tier_label : String := ""
deriving DecidableEq

instance : Inhabited Hosp := ⟨{}⟩

/-- Stage `enrich_hospital`, translated field by field from the source. -/
def enrich_hospital (r : Record) : Hosp :=
  let cert0 := pyStrip (getStrD r "Stroke Certification" "None")
  let cert := if certRecognized cert0 then cert0 else "None"
  let T := safe_int (r "Catchment Population")
  let S0 := safe_int (r "Population 65+")
  let S65 := imputedPop65 T S0
  let ep := effectivePop T S0
  let ischemic := ischemicVolume T S0
  let hemorrhagic := hemorrhagicVolume T S0
  { name := getStrD r "Hospital Name" ""
    short_name := getStrD r "Short Name" ""
    address := getStrD r "Address" ""
    city := getStrD r "City" ""
    state := getStrD r "State" ""
    county := getStrD r "County" ""
    phone := getStrD r "Phone" ""
    ir_phone := getStrIfTruthy r "IR Phone"
    lat := safe_float (r "Latitude")
    lng := safe_float (r "Longitude")
    beds := safe_int (r "Licensed Beds")
    affiliation := getStrD r "Affiliation" ""
    gpo := getStrD r "Buy Group/GPO" ""
    strokes_yr := safe_int (r "Strokes Per Year")
    comment := getStrIfTruthy r "Comment"
    cert := cert
    cert_body := getStrIfTruthy r "Cert Body"
    cert_color := (CERT_COLORS.lookup cert).getD "#6B7280"
    cert_label := (CERT_LABELS.lookup cert).getD "No Certification"
    nsg_fellowship := safe_bool (r "Neurosurgery Fellowship")
    nir_fellowship := safe_bool (r "Neuro IR Fellowship")
    median_age := safe_float (r "Median Age")
    life_expectancy := safe_float (r "Life Expectancy")
    pop_total := T
    pop_65_plus := S65
    pop_under_65 := popUnder65 T S65
    pop_65_pct := if 0 < T then roundTo1 ((S65 : ℚ) / (T : ℚ) * 100) else 0
    effective_pop := ep
    ischemic_volume := ischemic
    lvo_volume :=
      if 0 < ep then roundHalfEven ((ischemic : ℚ) * EPIRATES "lvo_pct_of_ischemic") else 0
    mt_eligible :=
      if 0 < ep then
        roundHalfEven
          ((roundHalfEven ((ischemic : ℚ) * EPIRATES "lvo_pct_of_ischemic") : ℚ) *
            EPIRATES "mt_eligibility_pct")
      else 0
    avm_aneurysm_volume :=
      if 0 < ep then roundHalfEven ((ep : ℚ) * EPIRATES "avm_aneurysm_per_100k" / 100000) else 0
    hemorrhagic_volume := hemorrhagic
    sah_volume :=
      if 0 < ep then roundHalfEven ((hemorrhagic : ℚ) * EPIRATES "hemorrhagic_sah_pct") else 0
    ich_volume :=
      if 0 < ep then roundHalfEven ((hemorrhagic : ℚ) * EPIRATES "hemorrhagic_ich_pct") else 0
    hemorrhagic_other :=
      if 0 < ep then roundHalfEven ((hemorrhagic : ℚ) * EPIRATES "hemorrhagic_other_pct") else 0
    total_stroke_volume := ischemic + hemorrhagic
    cah := safe_bool (r "CAH Status")
    telestroke := safe_bool (r "Telestroke Capable")
    thrombectomy_24_7 := safe_bool (r "24/7 Thrombectomy")
    tpa_available := safe_bool (r "tPA Available")
    neuro_icu := safe_bool (r "Neuro ICU")
    ct_scanner := safe_bool (r "CT Scanner")
    spoke_hospital := safe_bool (r "Spoke Hospital")
    afib_prevalence := safe_float (r "A-Fib Prevalence")
    afib_count := safe_int (r "A-Fib Absolute Count")
    mmae_score := safe_float (r "MMAE Score")
    clinical_benefit_radius := safe_float (r "Clinical Benefit Radius (km)")
    medevac_available := safe_bool (r "Medevac Available")
    road_access := safe_bool (r "Road Access") true }

/-! ### Composite infrastructure scorer (`calculate_infrastructure_scores`) -/

/-- Python `max(iterable, default=d)`. -/
def pyMax (l : List ℤ) (default : ℤ) : ℤ :=
  match l with
  | [] => default
  | a :: rest => rest.foldl max a

/-- The guarded stroke-volume denominator:
`max((h["strokes_yr"] for h in hospitals), default=1) or 1`. -/
def maxStrokesOf (hs : List Hosp) : ℤ :=
  let m := pyMax (hs.map (fun h => h.strokes_yr)) 1
  if m = 0 then 1 else m

/-- The certification component of the infrastructure score:
`cert_map.get(h["cert"], INFRA_WEIGHTS["cert_none"])`. -/
def infraCertScore (cert : String) : ℤ :=
  if cert = "CSC" then INFRA_WEIGHTS "cert_csc"
  else if cert = "PSC" then INFRA_WEIGHTS "cert_psc"
  else if cert = "TSC" then INFRA_WEIGHTS "cert_tsc"
  else if cert = "TCC" then INFRA_WEIGHTS "cert_tsc"
  else INFRA_WEIGHTS "cert_none"

/-- One record's infrastructure score given the guarded set-wide stroke
maximum `M`: weighted flag sum, volume share capped at 10, then
`min(round(score), 100)`. -/
def infraScoreIn (M : ℤ) (h : Hosp) : ℤ :=
  let score : ℤ :=
    infraCertScore h.cert
    + (if h.thrombectomy_24_7 then INFRA_WEIGHTS "thrombectomy_24_7" else 0)
    + (if h.neuro_icu then INFRA_WEIGHTS "neuro_icu" else 0)
    + (if h.cah then INFRA_WEIGHTS "cah" else 0)
    + (if h.ct_scanner then INFRA_WEIGHTS "ct_scanner" else 0)
    + (if h.telestroke then INFRA_WEIGHTS "telestroke" else 0)
    + (if h.tpa_available then INFRA_WEIGHTS "tpa" else 0)
    + (if h.nsg_fellowship then INFRA_WEIGHTS "nsg_fellowship" else 0)
    + (if h.nir_fellowship then INFRA_WEIGHTS "nir_fellowship" else 0)
    + min (INFRA_WEIGHTS "stroke_volume_max")
        (roundHalfEven ((h.strokes_yr : ℚ) / (M : ℚ) * INFRA_WEIGHTS "stroke_volume_max"))
  min (roundHalfEven ((score : ℚ))) 100

def calculate_infrastructure_scores (hs : List Hosp) : List Hosp :=
  hs.map (fun h => { h with infrastructure_score := infraScoreIn (maxStrokesOf hs) h })

/-! ### Tier classifier (`assign_clinical_tiers`) -/

/-- The sort key `(x["infrastructure_score"], x["strokes_yr"])`. -/
def tierKey (h : Hosp) : ℤ × ℤ := (h.infrastructure_score, h.strokes_yr)

/-- Descending order on sort keys: `p` sorts no later than `q` when `p` is
lexicographically at least `q` (Python tuple comparison, `reverse=True`). -/
def lexGe (p q : ℤ × ℤ) : Prop := q.1 < p.1 ∨ (q.1 = p.1 ∧ q.2 ≤ p.2)

instance : DecidableRel lexGe := fun p q =>
  inferInstanceAs (Decidable (q.1 < p.1 ∨ (q.1 = p.1 ∧ q.2 ≤ p.2)))

/-- Descending order on whole records by `tierKey`. -/
def tierGe (a b : Hosp) : Prop := lexGe (tierKey a) (tierKey b)

instance : DecidableRel tierGe := fun a b =>
  inferInstanceAs (Decidable (lexGe (tierKey a) (tierKey b)))

/-- Position of `p` in a list (length of the list when absent); the index a
record occupies in the stable descending sort. -/
def posOf (p : ℕ) : List ℕ → ℕ
  | [] => 0
  | a :: l => if a = p then 0 else posOf p l + 1

/-- The record positions `0, …, n-1` stably sorted into descending key
order — the order in which `sorted(hospitals, key=…, reverse=True)`
enumerates the records. -/
def sortedPositions (keys : List (ℤ × ℤ)) : List ℕ :=
  List.insertionSort (fun i j => lexGe (keys.getD i (0, 0)) (keys.getD j (0, 0)))
    (List.range keys.length)

/-- The tier assigned at (0-based) sorted position `i` of `n` records:
`1 if i < max(1, n // 3) else (2 if i < max(2, 2 * n // 3) else 3)`. -/
def tierOfIndex (n i : ℕ) : ℕ :=
  if i < max 1 (n / 3) then 1 else if i < max 2 (2 * n / 3) then 2 else 3

def tierLabel (t : ℕ) : String :=
  if t = 1 then "High Complexity Hub"
  else if t = 2 then "Regional Center"
  else "Basic Capability"

/-- Mapping with the element position, starting from the given index. -/
def mapWithIndexFrom {α β : Type} (f : ℕ → α → β) : ℕ → List α → List β
  | _, [] => []
  | i, a :: l => f i a :: mapWithIndexFrom f (i + 1) l

/-- Stage `assign_clinical_tiers`: each record receives the tier of its position
in the stable descending sort; the list itself keeps its original order
(the Python function mutates the records and returns the original list). -/
def assign_clinical_tiers (hs : List Hosp) : List Hosp :=
  let sp := sortedPositions (hs.map tierKey)
  let n := hs.length
  mapWithIndexFrom
    (fun p h =>
      { h with
        clinical_tier := tierOfIndex n (posOf p sp)
        clinical_tier_label := tierLabel (tierOfIndex n (posOf p sp)) })
    0 hs

/-! ### Geographic access (`assign_geographic_access`) -/

/-- The access bucket of a travel time in minutes. -/
def accessCategory (t : ℤ) : String :=
  if t < 30 then "Local"
  else if t < 120 then "Short"
  else if t < 240 then "Long"
  else "Flight Required"

/-! ### Travel resolver (`haversine`, `calculate_travel`) -/

noncomputable def radians (x : ℝ) : ℝ := x * Real.pi / 180

/-- Great-circle distance in statute miles, Earth radius 3959. -/
noncomputable def haversine (lat1 lon1 lat2 lon2 : ℝ) : ℝ :=
  let dlat := radians (lat2 - lat1)
  let dlon := radians (lon2 - lon1)
  let a := Real.sin (dlat / 2) ^ 2 +
    Real.cos (radians lat1) * Real.cos (radians lat2) * Real.sin (dlon / 2) ^ 2
  3959 * 2 * Real.arcsin (Real.sqrt a)

/-- A team base: the rep home base or one `team_members` entry. -/
structure TeamLoc where
  lat : ℝ
  lng : ℝ
  name : String

/-- The configuration fields `calculate_travel` consumes. -/
structure Config where
  rep_name : String
  rep_base_lat : ℝ
  rep_base_lng : ℝ
  team_members : List TeamLoc

/-- The scan list: primary base first, then the team members. -/
def teamOf (cfg : Config) : List TeamLoc :=
  ⟨cfg.rep_base_lat, cfg.rep_base_lng, cfg.rep_name⟩ :: cfg.team_members

/-- The nearest-base loop: strict-minimum scan with `min_dist` starting at
infinity (modelled by `none`) and `closest` at the first base name. -/
noncomputable def scanNearest (lat lng : ℝ) : List TeamLoc → Option ℝ × String → Option ℝ × String
  | [], acc => acc
  | tl :: rest, acc =>
      let d := haversine lat lng tl.lat tl.lng
      let acc2 :=
        match acc.1 with
        | none => (some d, tl.name)
        | some m => if d < m then (some d, tl.name) else acc
      scanNearest lat lng rest acc2

/-- Result of the scan over the whole team for one record. -/
noncomputable def nearestBase (team : List TeamLoc) (lat lng : ℝ) : Option ℝ × String :=
  match team with
  | [] => (none, "")
  | t :: _ => scanNearest lat lng team (none, t.name)

/-- The value `round(min_dist * 1.3 / 55 * 60)`. -/
noncomputable def travelTimeMin (d : ℝ) : ℤ := roundHalfEven (d * (13 / 10) / 55 * 60)

/-- The value `round(min_dist * 1.3, 1)`. -/
noncomputable def travelMiles (d : ℝ) : ℝ := roundTo1 (d * (13 / 10))

/-! ### The pipeline at raw-record level

For the frame property (raw input columns are never overwritten) the five
stages are also given in their dictionary-mutating form: each stage stores
its derived fields on the record under fixed keys. -/

/-- Assignment `h[k] = v` on a raw record. -/
def setKey (k : String) (v : Val) (r : Record) : Record :=
  fun k2 => if k2 = k then some v else r k2

/-- Store a list of key/value pairs in order. -/
def applyUpdates (us : List (String × Val)) (r : Record) : Record :=
  us.foldl (fun r2 p => setKey p.1 p.2 r2) r

/-- Reading a stored string field (`h["cert"]` and friends). -/
def valStrD (v : Option Val) : String :=
  match v with
  | none => ""
  | some w => valStr w

/-- Truthiness of a stored field (`if h["telestroke"]:` and friends). -/
def valTruthyD (v : Option Val) : Bool :=
  match v with
  | none => false
  | some w => valTruthy w

/-- Reading a stored integer field (`h["strokes_yr"]` and friends). -/
def valIntD (v : Option Val) : ℤ :=
  match v with
  | none => 0
  | some (.num q) => pyTrunc q
  | some (.bool b) => if b then 1 else 0
  | some (.str _) => 0

/-- Reading a stored float field (`h["lat"]`, `h["lng"]`). -/
def valFloatD (v : Option Val) : ℚ :=
  match v with
  | none => 0
  | some (.num q) => q
  | some (.bool b) => if b then 1 else 0
  | some (.str _) => 0

/-- The key/value pairs `enrich_hospital` stores on a record. -/
def enrichUpdates (r : Record) : List (String × Val) :=
  let e := enrich_hospital r
  [("name", .str e.name), ("short_name", .str e.short_name),
   ("address", .str e.address), ("city", .str e.city),
   ("state", .str e.state), ("county", .str e.county),
   ("phone", .str e.phone), ("ir_phone", .str e.ir_phone),
   ("lat", .num e.lat), ("lng", .num e.lng),
   ("beds", .num (e.beds : ℚ)), ("affiliation", .str e.affiliation),
   ("gpo", .str e.gpo), ("strokes_yr", .num (e.strokes_yr : ℚ)),
   ("comment", .str e.comment), ("cert", .str e.cert),
   ("cert_body", .str e.cert_body), ("cert_color", .str e.cert_color),
   ("cert_label", .str e.cert_label),
   ("nsg_fellowship", .bool e.nsg_fellowship),
   ("nir_fellowship", .bool e.nir_fellowship),
   ("median_age", .num e.median_age),
   ("life_expectancy", .num e.life_expectancy),
   ("pop_total", .num (e.pop_total : ℚ)),
   ("pop_65_plus", .num (e.pop_65_plus : ℚ)),
   ("pop_under_65", .num (e.pop_under_65 : ℚ)),
   ("pop_65_pct", .num e.pop_65_pct),
   ("effective_pop", .num (e.effective_pop : ℚ)),
   ("ischemic_volume", .num (e.ischemic_volume : ℚ)),
   ("lvo_volume", .num (e.lvo_volume : ℚ)),
   ("mt_eligible", .num (e.mt_eligible : ℚ)),
   ("avm_aneurysm_volume", .num (e.avm_aneurysm_volume : ℚ)),
   ("hemorrhagic_volume", .num (e.hemorrhagic_volume : ℚ)),
   ("sah_volume", .num (e.sah_volume : ℚ)),
   ("ich_volume", .num (e.ich_volume : ℚ)),
   ("hemorrhagic_other", .num (e.hemorrhagic_other : ℚ)),
   ("total_stroke_volume", .num (e.total_stroke_volume : ℚ)),
   ("cah", .bool e.cah), ("telestroke", .bool e.telestroke),
   ("thrombectomy_24_7", .bool e.thrombectomy_24_7),
   ("tpa_available", .bool e.tpa_available),
   ("neuro_icu", .bool e.neuro_icu), ("ct_scanner", .bool e.ct_scanner),
   ("spoke_hospital", .bool e.spoke_hospital),
   ("afib_prevalence", .num e.afib_prevalence),
   ("afib_count", .num (e.afib_count : ℚ)),
   ("mmae_score", .num e.mmae_score),
   ("clinical_benefit_radius", .num e.clinical_benefit_radius),
   ("medevac_available", .bool e.medevac_available),
   ("road_access", .bool e.road_access)]

def enrichDict (r : Record) : Record := applyUpdates (enrichUpdates r) r

/-- The extraction of the fields the scorer reads back off a record. -/
def hospOfRecord (r : Record) : Hosp :=
  { cert := valStrD (r "cert")
    thrombectomy_24_7 := valTruthyD (r "thrombectomy_24_7")
    neuro_icu := valTruthyD (r "neuro_icu")
    cah := valTruthyD (r "cah")
    ct_scanner := valTruthyD (r "ct_scanner")
    telestroke := valTruthyD (r "telestroke")
    tpa_available := valTruthyD (r "tpa_available")
    nsg_fellowship := valTruthyD (r "nsg_fellowship")
    nir_fellowship := valTruthyD (r "nir_fellowship")
    strokes_yr := valIntD (r "strokes_yr")
    infrastructure_score := valIntD (r "infrastructure_score") }

def scoreDict (rs : List Record) : List Record :=
  let M := maxStrokesOf (rs.map hospOfRecord)
  rs.map (fun r =>
    setKey "infrastructure_score" (.num ((infraScoreIn M (hospOfRecord r) : ℤ) : ℚ)) r)

def tiersDict (rs : List Record) : List Record :=
  let sp := sortedPositions ((rs.map hospOfRecord).map tierKey)
  let n := rs.length
  mapWithIndexFrom
    (fun p r =>
      applyUpdates
        [("clinical_tier", .num ((tierOfIndex n (posOf p sp) : ℕ) : ℚ)),
         ("clinical_tier_label", .str (tierLabel (tierOfIndex n (posOf p sp))))] r)
    0 rs

noncomputable def travelDict (cfg : Config) (rs : List Record) : List Record :=
  let team := teamOf cfg
  rs.map (fun r =>
    let res := nearestBase team ((valFloatD (r "lat") : ℝ)) ((valFloatD (r "lng") : ℝ))
    let d := res.1.getD 0
    applyUpdates
      [("travel_miles", .num (((roundHalfEven (d * (13 / 10) * 10) : ℤ) : ℚ) / 10)),
       ("travel_time_min", .num ((travelTimeMin d : ℤ) : ℚ)),
       ("closest_team_member", .str res.2)] r)

def accessDict (rs : List Record) : List Record :=
  rs.map (fun r =>
    setKey "geographic_access" (.str (accessCategory (valIntD (r "travel_time_min")))) r)

/-- The whole engine at record level: enrichment, scoring, tiering,
travel, access. -/
noncomputable def pipelineDict (cfg : Config) (rs : List Record) : List Record :=
  accessDict (travelDict cfg (tiersDict (scoreDict (rs.map enrichDict))))

/-- The recognized input columns. -/
def recognizedColumns : List String := REQUIRED_COLUMNS ++ OPTIONAL_COLUMNS

/-! ### Supporting lemmas -/

theorem le_foldl_max (l : List ℤ) (a b : ℤ) (h : b ≤ a) : b ≤ l.foldl max a := by
  induction l generalizing a with
  | nil => simpa using h
  | cons c t ih => exact ih (max a c) (le_trans h (le_max_left a c))

theorem pyMax_nonneg (l : List ℤ) (d : ℤ) (hd : 0 ≤ d) (hl : ∀ x ∈ l, 0 ≤ x) :
    0 ≤ pyMax l d := by
  cases l with
  | nil => simpa [pyMax] using hd
  | cons a t =>
      exact le_trans (hl a (by simp)) (le_foldl_max t a a le_rfl)

theorem maxStrokesOf_ne_zero (hs : List Hosp) : maxStrokesOf hs ≠ 0 := by
  simp only [maxStrokesOf]
  split_ifs with h
  · norm_num
  · exact h

theorem maxStrokesOf_pos (hs : List Hosp) (hnn : ∀ h ∈ hs, 0 ≤ h.strokes_yr) :
    0 < maxStrokesOf hs := by
  simp only [maxStrokesOf]
  have hm : 0 ≤ pyMax (hs.map (fun h => h.strokes_yr)) 1 := by
    refine pyMax_nonneg _ _ (by norm_num) ?_
    intro x hx
    obtain ⟨h, hh, rfl⟩ := List.mem_map.mp hx
    exact hnn h hh
  split_ifs with h0
  · norm_num
  · omega

theorem mapWithIndexFrom_length {α β : Type} (f : ℕ → α → β) (j : ℕ) (l : List α) :
    (mapWithIndexFrom f j l).length = l.length := by
  induction l generalizing j with
  | nil => rfl
  | cons a t ih => simp [mapWithIndexFrom, ih]

theorem mapWithIndexFrom_getElem? {α β : Type} (f : ℕ → α → β) (j i : ℕ) (l : List α) :
    (mapWithIndexFrom f j l)[i]? = (l[i]?).map (f (j + i)) := by
  induction l generalizing j i with
  | nil => simp [mapWithIndexFrom]
  | cons a t ih =>
      cases i with
      | zero => simp [mapWithIndexFrom]
      | succ m =>
          simp only [mapWithIndexFrom, List.getElem?_cons_succ, ih (j + 1) m]
          rw [Nat.add_assoc, Nat.add_comm 1 m]

theorem posOf_append_left {p : ℕ} {l1 l2 : List ℕ} (h : p ∈ l1) :
    posOf p (l1 ++ l2) = posOf p l1 := by
  induction l1 with
  | nil => cases h
  | cons a t ih =>
      by_cases ha : a = p
      · simp [posOf, ha]
      · have hp : p ∈ t := by
          rcases List.mem_cons.mp h with h1 | h1
          · exact absurd h1.symm ha
          · exact h1
        simp [posOf, ha, ih hp]

theorem posOf_append_right {p : ℕ} {l1 l2 : List ℕ} (h : p ∉ l1) :
    posOf p (l1 ++ l2) = l1.length + posOf p l2 := by
  induction l1 with
  | nil => simp
  | cons a t ih =>
      have ha : a ≠ p := by
        intro hap
        exact h (by simp [hap])
      have ht : p ∉ t := fun hp => h (by simp [hp])
      simp [posOf, ha, ih ht]
      omega

theorem posOf_range {p n : ℕ} (h : p < n) : posOf p (List.range n) = p := by
  induction n with
  | zero => omega
  | succ m ih =>
      rw [List.range_succ]
      by_cases hp : p < m
      · rw [posOf_append_left (List.mem_range.mpr hp), ih hp]
      · have hpm : p = m := by omega
        rw [posOf_append_right (by simp [List.mem_range]; omega)]
        simp [posOf, hpm]

theorem sortedPositions_of_sorted {hs : List Hosp} (hsort : List.Sorted tierGe hs) :
    sortedPositions (hs.map tierKey) = List.range (hs.map tierKey).length := by
  apply List.Sorted.insertionSort_eq
  rw [List.Sorted, List.pairwise_iff_getElem]
  intro i j hi hj hij
  rw [List.length_range] at hi hj
  rw [List.getElem_range, List.getElem_range]
  have hi2 : i < hs.length := by simpa using hi
  have hj2 : j < hs.length := by simpa using hj
  rw [List.getD_eq_getElem _ _ hi, List.getD_eq_getElem _ _ hj,
    List.getElem_map, List.getElem_map]
  exact (List.pairwise_iff_getElem.mp hsort) i j hi2 hj2 hij

theorem assign_clinical_tiers_tier_getD {hs : List Hosp} (hsort : List.Sorted tierGe hs)
    {i : ℕ} (hi : i < hs.length) :
    ((assign_clinical_tiers hs).getD i default).clinical_tier = tierOfIndex hs.length i := by
  unfold assign_clinical_tiers
  rw [List.getD_eq_getElem?_getD, mapWithIndexFrom_getElem?,
    List.getElem?_eq_getElem hi]
  rw [sortedPositions_of_sorted hsort]
  rw [posOf_range (by simpa using hi)]
  simp

theorem infraScoreIn_bounds {M : ℤ} (hM : 0 < M) (h : Hosp) (hst : 0 ≤ h.strokes_yr) :
    0 ≤ infraScoreIn M h ∧ infraScoreIn M h ≤ 100 := by
  have hcert : 5 ≤ infraCertScore h.cert := by
    unfold infraCertScore
    split_ifs <;> decide
  have hvarg : (0 : ℚ) ≤ (h.strokes_yr : ℚ) / (M : ℚ) * ((INFRA_WEIGHTS "stroke_volume_max" : ℤ) : ℚ) := by
    have h1 : (0 : ℚ) ≤ (h.strokes_yr : ℚ) := by exact_mod_cast hst
    have h2 : (0 : ℚ) ≤ (M : ℚ) := by exact_mod_cast le_of_lt hM
    have h3 : (0 : ℚ) ≤ ((INFRA_WEIGHTS "stroke_volume_max" : ℤ) : ℚ) := by
      norm_num [show (INFRA_WEIGHTS "stroke_volume_max" : ℤ) = 10 by decide]
    exact mul_nonneg (div_nonneg h1 h2) h3
  have f1 : 0 ≤ (if h.thrombectomy_24_7 then INFRA_WEIGHTS "thrombectomy_24_7" else 0) := by
    split_ifs <;> decide
  have f2 : 0 ≤ (if h.neuro_icu then INFRA_WEIGHTS "neuro_icu" else 0) := by
    split_ifs <;> decide
  have f3 : 0 ≤ (if h.cah then INFRA_WEIGHTS "cah" else 0) := by
    split_ifs <;> decide
  have f4 : 0 ≤ (if h.ct_scanner then INFRA_WEIGHTS "ct_scanner" else 0) := by
    split_ifs <;> decide
  have f5 : 0 ≤ (if h.telestroke then INFRA_WEIGHTS "telestroke" else 0) := by
    split_ifs <;> decide
  have f6 : 0 ≤ (if h.tpa_available then INFRA_WEIGHTS "tpa" else 0) := by
    split_ifs <;> decide
  have f7 : 0 ≤ (if h.nsg_fellowship then INFRA_WEIGHTS "nsg_fellowship" else 0) := by
    split_ifs <;> decide
  have f8 : 0 ≤ (if h.nir_fellowship then INFRA_WEIGHTS "nir_fellowship" else 0) := by
    split_ifs <;> decide
  have fvol : 0 ≤ min (INFRA_WEIGHTS "stroke_volume_max")
      (roundHalfEven ((h.strokes_yr : ℚ) / (M : ℚ) * ((INFRA_WEIGHTS "stroke_volume_max" : ℤ) : ℚ))) :=
    le_min (by decide) (roundHalfEven_nonneg hvarg)
  simp only [infraScoreIn]
  constructor
  · refine le_min ?_ (by norm_num)
    rw [roundHalfEven_intCast]
    linarith
  · exact min_le_right _ _

theorem infraScoreIn_extremal {M : ℤ} (hM : M ≠ 0) (h : Hosp)
    (hcert : h.cert = "CSC") (ha : h.thrombectomy_24_7 = true) (hb : h.neuro_icu = true)
    (hc : h.cah = true) (hd : h.ct_scanner = true) (he : h.telestroke = true)
    (hf : h.tpa_available = true) (hg : h.nsg_fellowship = true) (hh : h.nir_fellowship = true)
    (hs : h.strokes_yr = M) : infraScoreIn M h = 100 := by
  have hds : ((M : ℚ)) ≠ 0 := Int.cast_ne_zero.mpr hM
  simp only [infraScoreIn, hcert, ha, hb, hc, hd, he, hf, hg, hh, hs, if_true]
  rw [div_self hds, one_mul, roundHalfEven_intCast]
  norm_num [show infraCertScore "CSC" = 25 from by decide,
    show (INFRA_WEIGHTS "thrombectomy_24_7" : ℤ) = 15 from by decide,
    show (INFRA_WEIGHTS "neuro_icu" : ℤ) = 12 from by decide,
    show (INFRA_WEIGHTS "cah" : ℤ) = 10 from by decide,
    show (INFRA_WEIGHTS "ct_scanner" : ℤ) = 8 from by decide,
    show (INFRA_WEIGHTS "telestroke" : ℤ) = 8 from by decide,
    show (INFRA_WEIGHTS "tpa" : ℤ) = 5 from by decide,
    show (INFRA_WEIGHTS "nsg_fellowship" : ℤ) = 7 from by decide,
    show (INFRA_WEIGHTS "nir_fellowship" : ℤ) = 8 from by decide,
    show (INFRA_WEIGHTS "stroke_volume_max" : ℤ) = 10 from by decide]
  have h10 : roundHalfEven ((10 : ℚ)) = 10 :=
    roundHalfEven_eq_of_lt_half (by norm_num) (by norm_num)
  rw [h10]
  norm_num

/-- C1: for every record set whose records carry non-negative observed
stroke volumes, every computed infrastructure composite score lies in the
closed interval [0, 100]; moreover a record with top certification, every
capability flag set, both fellowships and the maximal stroke volume (the
guarded set-wide maximum) scores exactly the clamp value 100 — rounding
then min, the weighted sum never overflows the ceiling. -/
theorem C1_infrastructure_score_in_unit_interval (hs : List Hosp)
    (hnn : ∀ h ∈ hs, 0 ≤ h.strokes_yr) :
    (∀ g ∈ calculate_infrastructure_scores hs,
        0 ≤ g.infrastructure_score ∧ g.infrastructure_score ≤ 100) ∧
    (∀ h ∈ hs, h.cert = "CSC" → h.thrombectomy_24_7 = true → h.neuro_icu = true →
        h.cah = true → h.ct_scanner = true → h.telestroke = true →
        h.tpa_available = true → h.nsg_fellowship = true → h.nir_fellowship = true →
        h.strokes_yr = maxStrokesOf hs →
        infraScoreIn (maxStrokesOf hs) h = 100) := by
  constructor
  · intro g hg
    obtain ⟨h, hh, rfl⟩ := List.mem_map.mp hg
    exact infraScoreIn_bounds (maxStrokesOf_pos hs hnn) h (hnn h hh)
  · intro h _ hcert ha hb hc hd he hf hg2 hh2 hsm
    exact infraScoreIn_extremal (maxStrokesOf_ne_zero hs) h hcert ha hb hc hd he hf hg2 hh2 hsm

/-- The all-capability record used as the concrete clamping witness. -/
def hFull : Hosp :=
  { cert := "CSC", thrombectomy_24_7 := true, neuro_icu := true, cah := true,
    ct_scanner := true, telestroke := true, tpa_available := true,
    nsg_fellowship := true, nir_fellowship := true, strokes_yr := 800 }

/-- Witness for C1 at the concrete one-record set containing `hFull`. -/
theorem C1_witness :
    (∀ g ∈ calculate_infrastructure_scores [hFull],
        0 ≤ g.infrastructure_score ∧ g.infrastructure_score ≤ 100) ∧
    infraScoreIn (maxStrokesOf [hFull]) hFull = 100 := by
  have h := C1_infrastructure_score_in_unit_interval [hFull] (by decide)
  exact ⟨h.1, h.2 hFull (by decide) (by decide) (by decide) (by decide) (by decide)
    (by decide) (by decide) (by decide) (by decide) (by decide) (by decide)⟩

/-- C6: the stroke-volume-share denominator of the composite scorer is
guarded: it is never zero, it is 1 on the empty record set, it is 1 whenever
the set-wide maximum comes out zero, and the scorer maps the empty set to
the empty set — no division by zero is ever performed. -/
theorem C6_no_division_by_zero (hs : List Hosp) :
    maxStrokesOf hs ≠ 0 ∧
    maxStrokesOf ([] : List Hosp) = 1 ∧
    (pyMax (hs.map (fun h => h.strokes_yr)) 1 = 0 → maxStrokesOf hs = 1) ∧
    calculate_infrastructure_scores ([] : List Hosp) = [] := by
  refine ⟨maxStrokesOf_ne_zero hs, by decide, ?_, rfl⟩
  intro h0
  simp [maxStrokesOf, h0]

/-- Witness for C6 at a concrete one-record set whose only stroke volume
is zero, so the set-wide maximum is zero and the guard substitutes 1. -/
theorem C6_witness :
    maxStrokesOf [{ strokes_yr := 0 : Hosp }] ≠ 0 ∧
    maxStrokesOf [{ strokes_yr := 0 : Hosp }] = 1 := by
  have h := C6_no_division_by_zero [{ strokes_yr := 0 : Hosp }]
  exact ⟨h.1, h.2.2.1 (by decide)⟩

/-! ### Tier claims -/

/-- Ceiling-based tier boundaries, modelled from the claim text (not from
the source, which uses floor division): tier 1 up to position
max(ceil(n/3), 1), tier 2 up to position max(ceil(2n/3), 2), else tier 3. -/
def specCeilTierOfIndex (n i : ℕ) : ℕ :=
  if i < max ((n + 2) / 3) 1 then 1
  else if i < max ((2 * n + 2) / 3) 2 then 2
  else 3

/-- A four-record set, already sorted descending by the tier sort key. -/
def fourTierHosps : List Hosp :=
  [{ infrastructure_score := 40 }, { infrastructure_score := 30 },
   { infrastructure_score := 20 }, { infrastructure_score := 10 }]

/-- Counterexample to C2: on a sorted four-record set the classifier
assigns tiers [1, 2, 3, 3] (floor-based boundaries max(1, n // 3) and
max(2, 2n // 3)), while the ceiling-based boundaries of the claim would
demand [1, 1, 2, 3]. -/
theorem C2_counterexample :
    List.Sorted tierGe fourTierHosps ∧
    (assign_clinical_tiers fourTierHosps).map (fun h => h.clinical_tier) = [1, 2, 3, 3] ∧
    (List.range 4).map (fun i => specCeilTierOfIndex 4 i) = [1, 1, 2, 3] ∧
    ([1, 2, 3, 3] : List ℕ) ≠ [1, 1, 2, 3] := by
  refine ⟨?_, by decide, by decide, by decide⟩
  decide

/-- C2 (amended): for every record set sorted descending by the tier sort
key, the classifier assigns tier 1 to exactly the top max(1, floor(n/3))
positions, tier 2 to the next band up to position max(2, floor(2n/3)), and
tier 3 to the remainder, so every record receives exactly one of the three
tiers. -/
theorem C2_tier_partition (hs : List Hosp) (hsort : List.Sorted tierGe hs)
    (i : ℕ) (hi : i < hs.length) :
    ((assign_clinical_tiers hs).getD i default).clinical_tier = tierOfIndex hs.length i ∧
    (tierOfIndex hs.length i = 1 ↔ i < max 1 (hs.length / 3)) ∧
    (tierOfIndex hs.length i = 2 ↔
      ¬ i < max 1 (hs.length / 3) ∧ i < max 2 (2 * hs.length / 3)) ∧
    (tierOfIndex hs.length i = 3 ↔
      ¬ i < max 1 (hs.length / 3) ∧ ¬ i < max 2 (2 * hs.length / 3)) := by
  refine ⟨assign_clinical_tiers_tier_getD hsort hi, ?_, ?_, ?_⟩ <;>
    · unfold tierOfIndex
      split_ifs <;> simp_all

/-- Witness for C2 at the sorted four-record set, position 1. -/
theorem C2_witness :
    ((assign_clinical_tiers fourTierHosps).getD 1 default).clinical_tier =
      tierOfIndex fourTierHosps.length 1 ∧
    (tierOfIndex fourTierHosps.length 1 = 1 ↔ 1 < max 1 (fourTierHosps.length / 3)) ∧
    (tierOfIndex fourTierHosps.length 1 = 2 ↔
      ¬ 1 < max 1 (fourTierHosps.length / 3) ∧ 1 < max 2 (2 * fourTierHosps.length / 3)) ∧
    (tierOfIndex fourTierHosps.length 1 = 3 ↔
      ¬ 1 < max 1 (fourTierHosps.length / 3) ∧ ¬ 1 < max 2 (2 * fourTierHosps.length / 3)) :=
  C2_tier_partition fourTierHosps (by decide) 1 (by decide)

/-- Record A of the two-record tier scenario: composite score 90. -/
def hA90 : Hosp := { infrastructure_score := 90 }

/-- Record B of the two-record tier scenario: composite score 10. -/
def hB10 : Hosp := { infrastructure_score := 10 }

/-- Counterexample to C3: on the two-record set the classifier computes
tiers [1, 2] — record B lands in tier 2 (the cutoff max(2, 2*2 // 3) = 2
still covers position 1), not in tier 3 as the claim states. -/
theorem C3_counterexample :
    (assign_clinical_tiers [hA90, hB10]).map (fun h => h.clinical_tier) = [1, 2] ∧
    (2 : ℕ) ≠ 3 := by
  exact ⟨by decide, by decide⟩

/-- C3 (amended): for the two-record set with scores 90 and 10, the
classifier assigns record A tier 1 and record B tier 2. -/
theorem C3_two_record_tiers :
    ((assign_clinical_tiers [hA90, hB10]).getD 0 default).clinical_tier = 1 ∧
    ((assign_clinical_tiers [hA90, hB10]).getD 1 default).clinical_tier = 2 := by
  exact ⟨by decide, by decide⟩

/-! ### Demography, certification and flag-default claims -/

/-- The record of the C4 scenario: catchment population 680000,
population 65+ 108800. -/
def rC4 : Record := fun k =>
  if k = "Catchment Population" then some (.num 680000)
  else if k = "Population 65+" then some (.num 108800)
  else none

/-- C4: enriching a record with catchment population 680000 and 65+
population 108800 yields pop_65_pct = 16.0, effective population
(680000 - 108800) + 108800 * 2.5 = 843200, and ischemic volume
round(843200 * 216 / 100000) = 1821. -/
theorem C4_demography_scenario :
    (enrich_hospital rC4).pop_65_pct = 16 ∧
    (enrich_hospital rC4).effective_pop = 843200 ∧
    (enrich_hospital rC4).ischemic_volume = 1821 := by
  have hT : safe_int (rC4 "Catchment Population") = 680000 := by
    simp [rC4, safe_int, valFloat]
    exact pyTrunc_eq_of_nonneg (by norm_num) (by norm_num) (by norm_num)
  have hS : safe_int (rC4 "Population 65+") = 108800 := by
    simp [rC4, safe_int, valFloat]
    exact pyTrunc_eq_of_nonneg (by norm_num) (by norm_num) (by norm_num)
  have h1 : imputedPop65 680000 108800 = 108800 := by norm_num [imputedPop65]
  have h2 : popUnder65 680000 108800 = 571200 := by norm_num [popUnder65]
  have hep : effectivePop 680000 108800 = 843200 := by
    simp only [effectivePop, h1]
    rw [if_pos (by norm_num), h2]
    have h3 : ((571200 : ℤ) : ℚ) + ((108800 : ℤ) : ℚ) * EPIRATES "age_65_multiplier" = 843200 := by
      norm_num [EPIRATES]
    rw [h3]
    exact roundHalfEven_eq_of_lt_half (by norm_num) (by norm_num)
  refine ⟨?_, ?_, ?_⟩
  · simp only [enrich_hospital, hT, hS, h1]
    rw [if_pos (by norm_num)]
    have h4 : ((108800 : ℤ) : ℚ) / ((680000 : ℤ) : ℚ) * 100 = 16 := by norm_num
    rw [h4]
    simp only [roundTo1]
    have h5 : ((16 : ℚ)) * 10 = 160 := by norm_num
    rw [h5, show roundHalfEven ((160 : ℚ)) = 160 from
      roundHalfEven_eq_of_lt_half (by norm_num) (by norm_num)]
    norm_num
  · simp only [enrich_hospital, hT, hS, hep]
  · simp only [enrich_hospital, hT, hS]
    simp only [ischemicVolume, hep]
    rw [if_pos (by norm_num)]
    have h6 : ((843200 : ℤ) : ℚ) * EPIRATES "ischemic_per_100k" / 100000 = 227664 / 125 := by
      norm_num [EPIRATES]
    rw [h6]
    exact roundHalfEven_eq_of_lt_half (by norm_num) (by norm_num)

/-- The record of the C5 scenario: an unrecognized raw certification. -/
def recFoo : Record := fun k =>
  if k = "Stroke Certification" then some (.str "Foo") else none

/-- C5: the normalized certification of every enriched record is one of the
recognized enumerants; the unrecognized raw value "Foo" normalizes to
"None" (without raising — normalization is total), and its infrastructure
certification score component is 5. -/
theorem C5_cert_normalization (r : Record) :
    certRecognized (enrich_hospital r).cert = true ∧
    (enrich_hospital recFoo).cert = "None" ∧
    infraCertScore (enrich_hospital recFoo).cert = 5 := by
  refine ⟨?_, by decide, by decide⟩
  simp only [enrich_hospital]
  split_ifs with h
  · exact h
  · decide

/-- C10: a record whose Road Access cell is absent normalizes to
road_access = true, while every other capability flag normalizes to false
when its cell is absent. -/
theorem C10_absent_flag_defaults (r : Record) :
    (r "Road Access" = none → (enrich_hospital r).road_access = true) ∧
    (r "Telestroke Capable" = none → (enrich_hospital r).telestroke = false) ∧
    (r "24/7 Thrombectomy" = none → (enrich_hospital r).thrombectomy_24_7 = false) ∧
    (r "tPA Available" = none → (enrich_hospital r).tpa_available = false) ∧
    (r "Neuro ICU" = none → (enrich_hospital r).neuro_icu = false) ∧
    (r "CT Scanner" = none → (enrich_hospital r).ct_scanner = false) ∧
    (r "CAH Status" = none → (enrich_hospital r).cah = false) ∧
    (r "Spoke Hospital" = none → (enrich_hospital r).spoke_hospital = false) ∧
    (r "Medevac Available" = none → (enrich_hospital r).medevac_available = false) ∧
    (r "Neurosurgery Fellowship" = none → (enrich_hospital r).nsg_fellowship = false) ∧
    (r "Neuro IR Fellowship" = none → (enrich_hospital r).nir_fellowship = false) := by
  refine ⟨?_, ?_, ?_, ?_, ?_, ?_, ?_, ?_, ?_, ?_, ?_⟩ <;>
    · intro h
      simp only [enrich_hospital, h]
      rfl

/-- Witness for C10 at the fully empty record. -/
theorem C10_witness :
    (enrich_hospital (fun _ => none)).road_access = true ∧
    (enrich_hospital (fun _ => none)).telestroke = false ∧
    (enrich_hospital (fun _ => none)).thrombectomy_24_7 = false ∧
    (enrich_hospital (fun _ => none)).tpa_available = false ∧
    (enrich_hospital (fun _ => none)).neuro_icu = false ∧
    (enrich_hospital (fun _ => none)).ct_scanner = false ∧
    (enrich_hospital (fun _ => none)).cah = false ∧
    (enrich_hospital (fun _ => none)).spoke_hospital = false ∧
    (enrich_hospital (fun _ => none)).medevac_available = false ∧
    (enrich_hospital (fun _ => none)).nsg_fellowship = false ∧
    (enrich_hospital (fun _ => none)).nir_fellowship = false := by
  have h := C10_absent_flag_defaults (fun _ => none)
  exact ⟨h.1 rfl, h.2.1 rfl, h.2.2.1 rfl, h.2.2.2.1 rfl, h.2.2.2.2.1 rfl,
    h.2.2.2.2.2.1 rfl, h.2.2.2.2.2.2.1 rfl, h.2.2.2.2.2.2.2.1 rfl,
    h.2.2.2.2.2.2.2.2.1 rfl, h.2.2.2.2.2.2.2.2.2.1 rfl, h.2.2.2.2.2.2.2.2.2.2 rfl⟩

/-! ### Epidemiology monotonicity (C8) -/

theorem imputedPop65_of_ne {T S : ℤ} (hS : S ≠ 0) : imputedPop65 T S = S := by
  simp [imputedPop65, hS]

theorem effectivePop_eq_of_pos {T S : ℤ} (hT : 0 < T) :
    effectivePop T S = roundHalfEven ((popUnder65 T (imputedPop65 T S) : ℚ) +
      (imputedPop65 T S : ℚ) * (5 / 2)) := by
  simp only [effectivePop]
  rw [if_pos hT, show EPIRATES "age_65_multiplier" = 5 / 2 from by simp [EPIRATES]]

theorem effectivePop_mono {T1 S1 T2 S2 : ℤ} (hT : T1 ≤ T2)
    (hprop : S1 * T2 = S2 * T1) (h1 : 0 < effectivePop T1 S1) :
    effectivePop T1 S1 ≤ effectivePop T2 S2 := by
  have hT1 : 0 < T1 := by
    by_contra hc
    push_neg at hc
    have hz : effectivePop T1 S1 = 0 := by
      simp only [effectivePop]
      rw [if_neg (not_lt.mpr hc)]
    omega
  have hT2 : 0 < T2 := lt_of_lt_of_le hT1 hT
  have hT1q : (0 : ℚ) < (T1 : ℚ) := by exact_mod_cast hT1
  have hT2q : (0 : ℚ) < (T2 : ℚ) := by exact_mod_cast hT2
  have hTq : ((T1 : ℚ)) ≤ (T2 : ℚ) := by exact_mod_cast hT
  have hpropq : ((S1 : ℚ)) * (T2 : ℚ) = (S2 : ℚ) * (T1 : ℚ) := by exact_mod_cast hprop
  rw [effectivePop_eq_of_pos hT1] at h1 ⊢
  rw [effectivePop_eq_of_pos hT2]
  have hA1pos : (0 : ℚ) < (popUnder65 T1 (imputedPop65 T1 S1) : ℚ) +
      (imputedPop65 T1 S1 : ℚ) * (5 / 2) := by
    by_contra hc
    push_neg at hc
    have := roundHalfEven_nonpos hc
    omega
  refine roundHalfEven_mono ?_
  by_cases hS1 : S1 = 0
  · have hS2 : S2 = 0 := by
      have hz : S2 * T1 = 0 := by rw [← hprop, hS1, zero_mul]
      rcases mul_eq_zero.mp hz with h | h
      · exact h
      · omega
    have hI1 : imputedPop65 T1 S1 = pyTrunc ((T1 : ℚ) * (17 / 100)) := by
      simp only [imputedPop65]
      rw [if_pos ⟨hT1, hS1⟩, show EPIRATES "default_65_plus_pct" = 17 / 100 from by
        simp [EPIRATES]]
    have hI2 : imputedPop65 T2 S2 = pyTrunc ((T2 : ℚ) * (17 / 100)) := by
      simp only [imputedPop65]
      rw [if_pos ⟨hT2, hS2⟩, show EPIRATES "default_65_plus_pct" = 17 / 100 from by
        simp [EPIRATES]]
    have ht1 : pyTrunc ((T1 : ℚ) * (17 / 100)) = ⌊(T1 : ℚ) * (17 / 100)⌋ := by
      simp only [pyTrunc]
      rw [if_neg (not_lt.mpr (by positivity))]
    have ht2 : pyTrunc ((T2 : ℚ) * (17 / 100)) = ⌊(T2 : ℚ) * (17 / 100)⌋ := by
      simp only [pyTrunc]
      rw [if_neg (not_lt.mpr (by positivity))]
    have hIm : pyTrunc ((T1 : ℚ) * (17 / 100)) ≤ pyTrunc ((T2 : ℚ) * (17 / 100)) := by
      rw [ht1, ht2]
      exact Int.floor_mono (by nlinarith)
    have hInn1 : 0 ≤ pyTrunc ((T1 : ℚ) * (17 / 100)) := pyTrunc_nonneg (by positivity)
    have hIle1 : pyTrunc ((T1 : ℚ) * (17 / 100)) ≤ T1 := by
      rw [ht1]
      calc ⌊(T1 : ℚ) * (17 / 100)⌋ ≤ ⌊((T1 : ℤ) : ℚ)⌋ := Int.floor_mono (by nlinarith)
        _ = T1 := Int.floor_intCast T1
    have hInn2 : 0 ≤ pyTrunc ((T2 : ℚ) * (17 / 100)) := pyTrunc_nonneg (by positivity)
    have hIle2 : pyTrunc ((T2 : ℚ) * (17 / 100)) ≤ T2 := by
      rw [ht2]
      calc ⌊(T2 : ℚ) * (17 / 100)⌋ ≤ ⌊((T2 : ℤ) : ℚ)⌋ := Int.floor_mono (by nlinarith)
        _ = T2 := Int.floor_intCast T2
    rw [hI1, hI2]
    have hu1 : popUnder65 T1 (pyTrunc ((T1 : ℚ) * (17 / 100))) =
        T1 - pyTrunc ((T1 : ℚ) * (17 / 100)) := by
      simp only [popUnder65]
      omega
    have hu2 : popUnder65 T2 (pyTrunc ((T2 : ℚ) * (17 / 100))) =
        T2 - pyTrunc ((T2 : ℚ) * (17 / 100)) := by
      simp only [popUnder65]
      omega
    rw [hu1, hu2]
    have hImq : ((pyTrunc ((T1 : ℚ) * (17 / 100)) : ℤ) : ℚ) ≤
        ((pyTrunc ((T2 : ℚ) * (17 / 100)) : ℤ) : ℚ) := by exact_mod_cast hIm
    push_cast
    linarith
  · have hS2 : S2 ≠ 0 := by
      intro hz
      rw [hz, zero_mul] at hprop
      rcases mul_eq_zero.mp hprop with h | h
      · exact hS1 h
      · omega
    rw [imputedPop65_of_ne hS1] at hA1pos ⊢
    rw [imputedPop65_of_ne hS2]
    by_cases hcl : S1 ≤ T1
    · have hu1 : popUnder65 T1 S1 = T1 - S1 := by
        simp only [popUnder65]
        omega
      have hkey : (T2 - S2) * T1 = T2 * (T1 - S1) := by linear_combination hprop
      have hS2le : S2 ≤ T2 := by
        have hp : 0 ≤ (T2 - S2) * T1 := by
          rw [hkey]
          exact mul_nonneg (by omega) (by omega)
        nlinarith
      have hu2 : popUnder65 T2 S2 = T2 - S2 := by
        simp only [popUnder65]
        omega
      rw [hu1] at hA1pos ⊢
      rw [hu2]
      push_cast at hA1pos ⊢
      have hkeyq : ((T2 : ℚ) + (3 / 2) * S2 - ((T1 : ℚ) + (3 / 2) * S1)) * T1 =
          ((T2 : ℚ) - T1) * ((T1 : ℚ) + (3 / 2) * S1) := by
        linear_combination (-3 / 2 : ℚ) * hpropq
      have hx : (0 : ℚ) ≤ ((T2 : ℚ) + (3 / 2) * S2 - ((T1 : ℚ) + (3 / 2) * S1)) * T1 := by
        rw [hkeyq]
        have hfac : (0 : ℚ) ≤ (T1 : ℚ) + (3 / 2) * S1 := by linarith
        exact mul_nonneg (by linarith) hfac
      nlinarith
    · have hu1 : popUnder65 T1 S1 = 0 := by
        simp only [popUnder65]
        omega
      rw [hu1] at hA1pos ⊢
      have hS1pos : 0 < S1 := by
        have : (0 : ℚ) < (S1 : ℚ) := by
          push_cast at hA1pos
          linarith
        exact_mod_cast this
      have hS2pos : 0 < S2 := by
        by_contra hc
        push_neg at hc
        have h1' : S2 * T1 ≤ 0 := mul_nonpos_iff.mpr (Or.inr ⟨hc, by omega⟩)
        have h2' : 0 < S1 * T2 := mul_pos hS1pos hT2
        omega
      have hkey2 : (S2 - T2) * T1 = T2 * (S1 - T1) := by linear_combination -hprop
      have hT2S2 : T2 < S2 := by
        have hp : 0 < (S2 - T2) * T1 := by
          rw [hkey2]
          exact mul_pos hT2 (by omega)
        nlinarith
      have hu2 : popUnder65 T2 S2 = 0 := by
        simp only [popUnder65]
        omega
      rw [hu2]
      have hkey3 : (S2 - S1) * T1 = S1 * (T2 - T1) := by linear_combination -hprop
      have hS12 : S1 ≤ S2 := by
        have hp : 0 ≤ (S2 - S1) * T1 := by
          rw [hkey3]
          exact mul_nonneg (by omega) (by omega)
        nlinarith
      have : ((S1 : ℚ)) ≤ (S2 : ℚ) := by exact_mod_cast hS12
      push_cast
      linarith

theorem rateVol_mono {c : ℚ} (hc : 0 ≤ c) {T1 S1 T2 S2 : ℤ} (hT : T1 ≤ T2)
    (hprop : S1 * T2 = S2 * T1) :
    (if 0 < effectivePop T1 S1 then
      roundHalfEven ((effectivePop T1 S1 : ℚ) * c / 100000) else 0) ≤
    (if 0 < effectivePop T2 S2 then
      roundHalfEven ((effectivePop T2 S2 : ℚ) * c / 100000) else 0) := by
  by_cases h1 : 0 < effectivePop T1 S1
  · have h2 : effectivePop T1 S1 ≤ effectivePop T2 S2 := effectivePop_mono hT hprop h1
    have h2pos : 0 < effectivePop T2 S2 := lt_of_lt_of_le h1 h2
    rw [if_pos h1, if_pos h2pos]
    refine roundHalfEven_mono ?_
    have h2q : ((effectivePop T1 S1 : ℤ) : ℚ) ≤ ((effectivePop T2 S2 : ℤ) : ℚ) := by
      exact_mod_cast h2
    have h1q : (0 : ℚ) ≤ ((effectivePop T1 S1 : ℤ) : ℚ) := by
      exact_mod_cast le_of_lt h1
    have := mul_le_mul_of_nonneg_right h2q hc
    linarith
  · rw [if_neg h1]
    split_ifs with h2
    · refine roundHalfEven_nonneg ?_
      have hq : (0 : ℚ) ≤ ((effectivePop T2 S2 : ℤ) : ℚ) := by exact_mod_cast le_of_lt h2
      positivity
    · exact le_refl 0

/-- C8: for any two demographic inputs with the same 65+ proportion
(cross-multiplied: S1 * T2 = S2 * T1) and a larger total catchment
population, the derived ischemic and hemorrhagic volume estimates are
monotone non-decreasing through the rounding chain. -/
theorem C8_epidemiology_volumes_monotone (T1 S1 T2 S2 : ℤ) (hT : T1 ≤ T2)
    (hprop : S1 * T2 = S2 * T1) :
    ischemicVolume T1 S1 ≤ ischemicVolume T2 S2 ∧
    hemorrhagicVolume T1 S1 ≤ hemorrhagicVolume T2 S2 := by
  constructor
  · have h := @rateVol_mono (EPIRATES "ischemic_per_100k")
      (by norm_num [EPIRATES]) T1 S1 T2 S2 hT hprop
    simpa only [ischemicVolume] using h
  · have h := @rateVol_mono (EPIRATES "hemorrhagic_per_100k")
      (by norm_num [EPIRATES]) T1 S1 T2 S2 hT hprop
    simpa only [hemorrhagicVolume] using h

/-- Witness for C8: doubling the catchment population 680000 with the 16
percent age structure held fixed. -/
theorem C8_witness :
    ischemicVolume 680000 108800 ≤ ischemicVolume 1360000 217600 ∧
    hemorrhagicVolume 680000 108800 ≤ hemorrhagicVolume 1360000 217600 :=
  C8_epidemiology_volumes_monotone 680000 108800 1360000 217600
    (by norm_num) (by norm_num)

/-! ### Travel and access claims -/

/-- The configuration of the C7 scenario: a single base at (30, -81). -/
noncomputable def cfgC7 : Config :=
  { rep_name := "Rep", rep_base_lat := 30, rep_base_lng := -81, team_members := [] }

/-- C7: the geographic access category is a function of the travel time
alone, with bands Local below 30, Short in [30, 120), Long in [120, 240)
and Flight Required from 240 up (exactly 30 falls into Short); and a
hospital at the only team base has haversine distance 0, travel time 0 and
category Local. -/
theorem C7_access_category (t : ℤ) :
    (accessCategory t = "Local" ↔ t < 30) ∧
    (accessCategory t = "Short" ↔ 30 ≤ t ∧ t < 120) ∧
    (accessCategory t = "Long" ↔ 120 ≤ t ∧ t < 240) ∧
    (accessCategory t = "Flight Required" ↔ 240 ≤ t) ∧
    accessCategory 30 = "Short" ∧
    haversine 30 (-81) 30 (-81) = 0 ∧
    nearestBase (teamOf cfgC7) 30 (-81) = (some 0, "Rep") ∧
    travelTimeMin 0 = 0 ∧
    accessCategory (travelTimeMin 0) = "Local" := by
  have hzero : haversine 30 (-81) 30 (-81) = 0 := by
    simp [haversine, radians]
  have hnb : nearestBase (teamOf cfgC7) 30 (-81) = (some 0, "Rep") := by
    simp [nearestBase, teamOf, cfgC7, scanNearest, hzero]
  have htt : travelTimeMin 0 = 0 := by
    have e : (0 : ℝ) * (13 / 10) / 55 * 60 = ((0 : ℤ) : ℝ) := by norm_num
    simp only [travelTimeMin]
    rw [e, roundHalfEven_intCast]
  refine ⟨?_, ?_, ?_, ?_, by decide, hzero, hnb, ?_, ?_⟩
  · simp only [accessCategory]
    split_ifs with h1 h2 h3 <;> simp_all
  · simp only [accessCategory]
    split_ifs with h1 h2 h3 <;> simp_all
  · simp only [accessCategory]
    split_ifs with h1 h2 h3 <;> simp_all <;> omega
  · simp only [accessCategory]
    split_ifs with h1 h2 h3 <;> simp_all <;> omega
  · exact htt
  · rw [htt]
    decide

/-! ### Frame claim (C9): raw columns are never overwritten -/

/-- The derived keys `enrich_hospital` writes. -/
def enrichKeys : List String :=
  ["name", "short_name", "address", "city", "state", "county", "phone",
   "ir_phone", "lat", "lng", "beds", "affiliation", "gpo", "strokes_yr",
   "comment", "cert", "cert_body", "cert_color", "cert_label",
   "nsg_fellowship", "nir_fellowship", "median_age", "life_expectancy",
   "pop_total", "pop_65_plus", "pop_under_65", "pop_65_pct", "effective_pop",
   "ischemic_volume", "lvo_volume", "mt_eligible", "avm_aneurysm_volume",
   "hemorrhagic_volume", "sah_volume", "ich_volume", "hemorrhagic_other",
   "total_stroke_volume", "cah", "telestroke", "thrombectomy_24_7",
   "tpa_available", "neuro_icu", "ct_scanner", "spoke_hospital",
   "afib_prevalence", "afib_count", "mmae_score", "clinical_benefit_radius",
   "medevac_available", "road_access"]

theorem enrichUpdates_keys (r : Record) :
    (enrichUpdates r).map Prod.fst = enrichKeys := rfl

theorem setKey_apply_of_ne {k k2 : String} (hne : k2 ≠ k) (v : Val) (r : Record) :
    setKey k v r k2 = r k2 := if_neg hne

theorem applyUpdates_apply_of_not_mem (us : List (String × Val)) (r : Record)
    (k : String) (hk : k ∉ us.map Prod.fst) : applyUpdates us r k = r k := by
  induction us generalizing r with
  | nil => rfl
  | cons u t ih =>
      simp only [List.map_cons, List.mem_cons, not_or] at hk
      show applyUpdates t (setKey u.1 u.2 r) k = r k
      rw [ih _ hk.2]
      exact setKey_apply_of_ne hk.1 u.2 r

/-- The derived keys, per pipeline stage, never collide with a recognized
input column. -/
theorem recognized_not_derived :
    ∀ x ∈ recognizedColumns,
      x ∉ enrichKeys ∧ x ≠ "infrastructure_score" ∧ x ≠ "clinical_tier" ∧
      x ≠ "clinical_tier_label" ∧ x ≠ "travel_miles" ∧ x ≠ "travel_time_min" ∧
      x ≠ "closest_team_member" ∧ x ≠ "geographic_access" := by
  decide

theorem getElem?_map_apply (f : Record → Record) (k : String)
    (hf : ∀ r, f r k = r k) (rs : List Record) (i : ℕ) :
    ((rs.map f)[i]?).map (fun r => r k) = (rs[i]?).map (fun r => r k) := by
  rw [List.getElem?_map]
  cases hr : rs[i]? with
  | none => rfl
  | some r => simp [hf r]

/-- C9: a record passed through all five pipeline stages agrees with the
original record on every recognized input column — the engine only appends
derived keys and never deletes or overwrites a raw input field. -/
theorem C9_raw_fields_preserved (cfg : Config) (rs : List Record) (i : ℕ)
    (k : String) (hk : k ∈ recognizedColumns) :
    ((pipelineDict cfg rs)[i]?).map (fun r => r k) =
      (rs[i]?).map (fun r => r k) := by
  obtain ⟨hk1, hk2, hk3, hk4, hk5, hk6, hk7, hk8⟩ := recognized_not_derived k hk
  unfold pipelineDict
  have e1 : ∀ l : List Record,
      ((accessDict l)[i]?).map (fun r => r k) = (l[i]?).map (fun r => r k) := by
    intro l
    unfold accessDict
    exact getElem?_map_apply _ k (fun r => setKey_apply_of_ne hk8 _ r) l i
  have e2 : ∀ l : List Record,
      ((travelDict cfg l)[i]?).map (fun r => r k) = (l[i]?).map (fun r => r k) := by
    intro l
    unfold travelDict
    refine getElem?_map_apply _ k (fun r => ?_) l i
    refine applyUpdates_apply_of_not_mem _ _ _ ?_
    simp [hk5, hk6, hk7]
  have e3 : ∀ l : List Record,
      ((tiersDict l)[i]?).map (fun r => r k) = (l[i]?).map (fun r => r k) := by
    intro l
    unfold tiersDict
    rw [mapWithIndexFrom_getElem?]
    cases hr : l[i]? with
    | none => rfl
    | some r =>
        simp only [Option.map_some', Option.some.injEq]
        refine applyUpdates_apply_of_not_mem _ _ _ ?_
        simp [hk3, hk4]
  have e4 : ∀ l : List Record,
      ((scoreDict l)[i]?).map (fun r => r k) = (l[i]?).map (fun r => r k) := by
    intro l
    unfold scoreDict
    exact getElem?_map_apply _ k (fun r => setKey_apply_of_ne hk2 _ r) l i
  have e5 : ((rs.map enrichDict)[i]?).map (fun r => r k) =
      (rs[i]?).map (fun r => r k) := by
    refine getElem?_map_apply _ k (fun r => ?_) rs i
    unfold enrichDict
    refine applyUpdates_apply_of_not_mem _ _ _ ?_
    rw [enrichUpdates_keys]
    exact hk1
  rw [e1, e2, e3, e4, e5]

/-- The record and configuration used as the C9 witness. -/
def rLat : Record := fun k => if k = "Latitude" then some (.num 30) else none

noncomputable def cfgC9 : Config :=
  { rep_name := "Base", rep_base_lat := 0, rep_base_lng := 0, team_members := [] }

/-- Witness for C9 at a concrete one-record set and the Latitude column. -/
theorem C9_witness :
    ((pipelineDict cfgC9 [rLat])[0]?).map (fun r => r "Latitude") =
      (([rLat] : List Record)[0]?).map (fun r => r "Latitude") :=
  C9_raw_fields_preserved cfgC9 [rLat] 0 "Latitude" (by decide)

end TerritoryMap
